import Mathlib

/-
  Verification development for the aw-storage-mongodb repository.

  The definitions below are a shallow embedding of the repository's
  TypeScript sources:
    - src/src/mongo.collection.source.ts  (MongoCollectionSource and the
      embedded MongoWhereParser),
    - src/src/utils.ts                    (isDuplicateError,
      getDuplicatedDocumentIds / getDuplicatedDataIds, isInvalidDataError,
      isBulkUpdate),
    - src/src/errors.ts                   (PendingSessionError, SessionError,
      BulkUpdateOperationsError),
  together with models of the query-builder functions
  (buildUpdateQuery, buildAggregationQuery) whose implementation file
  mongo.query-builders.ts is not part of the available sources; those are
  modelled from the specification and pinned by the repository's unit tests
  (src/src/__tests__/mongo.query-builders.unit.test.ts).

  JavaScript values flowing through the parser and builders (filter
  documents, update documents, pipeline stages) are modelled by the
  inductive type MValue below; JavaScript objects become ordered lists of
  key/value pairs, which is faithful because the code only ever builds
  fresh objects by inserting distinct keys in a fixed order.
-/

/-- Reduction of `Except.map` over a success, used to unfold the embedded
translation pipelines. -/
theorem exceptMap_ok {ε α β : Type} (f : α → β) (x : α) :
    Except.map f (Except.ok x : Except ε α) = .ok (f x) := rfl

/-- Reduction of `Except.map` over a failure. -/
theorem exceptMap_error {ε α β : Type} (f : α → β) (e : ε) :
    Except.map f (Except.error e : Except ε α) = .error e := rfl

/-- Reduction of the `Except` monad bind over a success. -/
theorem exceptBind_ok {ε α β : Type} (f : α → Except ε β) (a : α) :
    (Except.ok a : Except ε α) >>= f = f a := rfl

/-- Reduction of the `Except` monad bind over a failure. -/
theorem exceptBind_error {ε α β : Type} (f : α → Except ε β) (e : ε) :
    (Except.error e : Except ε α) >>= f = .error e := rfl

/-- Mongo/JSON-like document values: the dynamic values the TypeScript code
builds and returns (filters, update documents, pipeline stages). Objects
are ordered key/value lists, mirroring JavaScript property insertion
order. -/
inductive MValue where
  | null
  | bool (b : Bool)
  | num (n : Int)
  | str (s : String)
  | arr (items : List MValue)
  | obj (fields : List (String × MValue))

/-- Operators of the provider-neutral `Where` condition language
(`WhereOperator` from the api-core dependency), as enumerated by the keys
of `MongoWhereParser.operatorMap` in src/src/mongo.collection.source.ts.
The constructor `unknownOp name` stands for any operator value that has no
entry in the operator map (for example the invalid operator the unit test
injects, whose enum reverse-lookup prints as "undefined"); `name` is the
string the reverse-lookup `WhereOperator[op]` yields for it. -/
inductive WhereOperator where
  | isEq
  | isNotEq
  | isLt
  | isLte
  | isGt
  | isGte
  | isInRange
  | isNotInRange
  | isIn
  | isNotIn
  | isTrue
  | isFalse
  | is0
  | is1
  | isNull
  | isNotNull
  | isEmpty
  | isNotEmpty
  | unknownOp (name : String)
deriving DecidableEq

/-- Enum reverse-lookup `WhereOperator[op]`: the printable name of an
operator, used when raising `UnsupportedOperatorError`. -/
def WhereOperator.printableName : WhereOperator → String
  | .isEq => "isEq"
  | .isNotEq => "isNotEq"
  | .isLt => "isLt"
  | .isLte => "isLte"
  | .isGt => "isGt"
  | .isGte => "isGte"
  | .isInRange => "isInRange"
  | .isNotInRange => "isNotInRange"
  | .isIn => "isIn"
  | .isNotIn => "isNotIn"
  | .isTrue => "isTrue"
  | .isFalse => "isFalse"
  | .is0 => "is0"
  | .is1 => "is1"
  | .isNull => "isNull"
  | .isNotNull => "isNotNull"
  | .isEmpty => "isEmpty"
  | .isNotEmpty => "isNotEmpty"
  | .unknownOp name => name

/-- Right-hand sides of `MongoWhereParser.operatorMap`: either a native
operator token (a string such as "$eq") or one of the two fixed composite
clauses used for `isEmpty` / `isNotEmpty`. -/
inductive NativeOperator where
  | token (s : String)
  | emptyComposite
  | notEmptyComposite
deriving DecidableEq

/-- The fixed composite clause the operator map stores for `isEmpty`:
`\x7b $or: [\x7b $eq: '' \x7d, \x7b $eq: [] \x7d, \x7b $eq: \x7b\x7d \x7d] \x7d`. -/
def MongoWhereParser.emptyCompositeDoc : MValue :=
  .obj [("$or", .arr [.obj [("$eq", .str "")], .obj [("$eq", .arr [])],
    .obj [("$eq", .obj [])]])]

/-- The fixed composite clause the operator map stores for `isNotEmpty`:
`\x7b $and: [\x7b $ne: '' \x7d, \x7b $ne: [] \x7d, \x7b $ne: \x7b\x7d \x7d] \x7d`. -/
def MongoWhereParser.notEmptyCompositeDoc : MValue :=
  .obj [("$and", .arr [.obj [("$ne", .str "")], .obj [("$ne", .arr [])],
    .obj [("$ne", .obj [])]])]

/-- `MongoWhereParser.operatorMap` from src/src/mongo.collection.source.ts
(lines 347-368): the partial map from `WhereOperator` to the native MongoDB
operator. Operators outside the map (`unknownOp`) yield `none`, which the
parser turns into an `UnsupportedOperatorError`. -/
def MongoWhereParser.operatorMap : WhereOperator → Option NativeOperator
  | .isEq => some (.token "$eq")
  | .isNotEq => some (.token "$ne")
  | .isLt => some (.token "$lt")
  | .isLte => some (.token "$lte")
  | .isGt => some (.token "$gt")
  | .isGte => some (.token "$gte")
  | .isInRange => some (.token "$in")
  | .isNotInRange => some (.token "$nin")
  | .isIn => some (.token "$in")
  | .isNotIn => some (.token "$nin")
  | .isTrue => some (.token "$eq")
  | .isFalse => some (.token "$eq")
  | .is0 => some (.token "$eq")
  | .is1 => some (.token "$eq")
  | .isNull => some (.token "$eq")
  | .isNotNull => some (.token "$ne")
  | .isEmpty => some .emptyComposite
  | .isNotEmpty => some .notEmptyComposite
  | .unknownOp _ => none

/-- A single entry of a `Where` chain: one operator/value pair for a field
(`WhereClause` from api-core). The `between` constructor is modelled from
the spec: the repository's `mongo.where.parser.ts` (not among the available
sources; only its unit test is) supports `isBetween(lower, upper)`, which
per spec section 4.1 "emits two bound clauses (>= lower, <= upper) on the
same field rather than a single operator"; the two bounds are carried
directly. -/
inductive WhereClause where
  | clause (operator : WhereOperator) (value : MValue)
  | between (lower upper : MValue)

/-- Input accepted by `MongoWhereParser.parse`: a `Where` instance whose
`isRaw` flag is set (carrying a pre-built native filter), a `Where`
instance whose `result` is a chain of field/clause pairs, or a plain
object whose first key is expected to be a logical connective mapped to a
list of operand expressions (further keys of such an object are carried
but, as in the source, never inspected). -/
inductive WhereInput where
  | rawWhere (result : MValue)
  | chainWhere (chain : List (String × WhereClause))
  | plainObj (entries : List (String × List WhereInput))

/-- Errors raised by the parser: `UnsupportedOperatorError` carrying the
name of the unsupported operator or connective key. -/
inductive ParseError where
  | unsupportedOperator (name : String)
deriving DecidableEq

/-- Translation of one `WhereClause` into the native clause stored under
its field, following the body of the chain loop in
src/src/mongo.collection.source.ts lines 384-402: look the operator up in
the map and fail when it is absent; `isEmpty` / `isNotEmpty` yield the
fixed composite document; `isNull` yields the mapped operator applied to
null instead of the supplied value; every other mapped operator is applied
to the supplied value. The `between` case is modelled from the spec (two
bound clauses on the same field). -/
def MongoWhereParser.clauseToFilter : WhereClause → Except ParseError MValue
  | .between lower upper => .ok (.obj [("$gte", lower), ("$lte", upper)])
  | .clause operator value =>
    match MongoWhereParser.operatorMap operator with
    | none => .error (.unsupportedOperator operator.printableName)
    | some .emptyComposite => .ok MongoWhereParser.emptyCompositeDoc
    | some .notEmptyComposite => .ok MongoWhereParser.notEmptyCompositeDoc
    | some (.token mongoOperator) =>
      if operator = .isNull then .ok (.obj [(mongoOperator, .null)])
      else .ok (.obj [(mongoOperator, value)])

/-- The chain loop of `MongoWhereParser.parse`: translate each field's
clause in order, building the query object; the first unsupported operator
aborts the whole translation. -/
def MongoWhereParser.parseChain :
    List (String × WhereClause) → Except ParseError (List (String × MValue))
  | [] => .ok []
  | (key, whereClause) :: rest => do
    let clause ← MongoWhereParser.clauseToFilter whereClause
    let restQuery ← MongoWhereParser.parseChain rest
    .ok ((key, clause) :: restQuery)

mutual

/-- `MongoWhereParser.parse` from src/src/mongo.collection.source.ts
(lines 378-415). A raw `Where` returns its pre-built result unchanged; a
chain `Where` is translated entry by entry; a plain object is dispatched
on its first key only: "and" / "or" become `$and` / `$or` over the parsed
operand list, any other first key (including the absent key of an empty
object, whose lookup prints as "undefined") raises
`UnsupportedOperatorError` naming that key. -/
def MongoWhereParser.parse : WhereInput → Except ParseError MValue
  | .rawWhere result => .ok result
  | .chainWhere chain =>
    (MongoWhereParser.parseChain chain).map fun query => .obj query
  | .plainObj [] => .error (.unsupportedOperator "undefined")
  | .plainObj ((operator, values) :: _) =>
    if operator ≠ "and" ∧ operator ≠ "or" then
      .error (.unsupportedOperator operator)
    else
      (MongoWhereParser.parseOperands values).map fun results =>
        .obj [("$" ++ operator, .arr results)]

/-- `values.map(this.parse)` with JavaScript exception propagation: parse
each operand in order, aborting on the first failure. -/
def MongoWhereParser.parseOperands :
    List WhereInput → Except ParseError (List MValue)
  | [] => .ok []
  | value :: rest => do
    let parsed ← MongoWhereParser.parse value
    let parsedRest ← MongoWhereParser.parseOperands rest
    .ok (parsed :: parsedRest)

end

/-- C3: for every leaf condition (one field, one supported operator, one
value), `MongoWhereParser.parse` returns the field mapped to the native
operator applied to the value, except that `isNull` yields `$eq : null`
regardless of the supplied value, `isEmpty` / `isNotEmpty` yield the fixed
composite `$or`- / `$and`-clauses over the three empty representations,
and `isBetween` yields the two-bound `$gte` / `$lte` clause on the same
field. -/
theorem whereParser_leaf_translation (f : String) (v lo hi : MValue) :
    MongoWhereParser.parse (.chainWhere [(f, .clause .isEq v)]) =
      .ok (.obj [(f, .obj [("$eq", v)])]) ∧
    MongoWhereParser.parse (.chainWhere [(f, .clause .isNotEq v)]) =
      .ok (.obj [(f, .obj [("$ne", v)])]) ∧
    MongoWhereParser.parse (.chainWhere [(f, .clause .isLt v)]) =
      .ok (.obj [(f, .obj [("$lt", v)])]) ∧
    MongoWhereParser.parse (.chainWhere [(f, .clause .isLte v)]) =
      .ok (.obj [(f, .obj [("$lte", v)])]) ∧
    MongoWhereParser.parse (.chainWhere [(f, .clause .isGt v)]) =
      .ok (.obj [(f, .obj [("$gt", v)])]) ∧
    MongoWhereParser.parse (.chainWhere [(f, .clause .isGte v)]) =
      .ok (.obj [(f, .obj [("$gte", v)])]) ∧
    MongoWhereParser.parse (.chainWhere [(f, .clause .isInRange v)]) =
      .ok (.obj [(f, .obj [("$in", v)])]) ∧
    MongoWhereParser.parse (.chainWhere [(f, .clause .isNotInRange v)]) =
      .ok (.obj [(f, .obj [("$nin", v)])]) ∧
    MongoWhereParser.parse (.chainWhere [(f, .clause .isIn v)]) =
      .ok (.obj [(f, .obj [("$in", v)])]) ∧
    MongoWhereParser.parse (.chainWhere [(f, .clause .isNotIn v)]) =
      .ok (.obj [(f, .obj [("$nin", v)])]) ∧
    MongoWhereParser.parse (.chainWhere [(f, .clause .isTrue v)]) =
      .ok (.obj [(f, .obj [("$eq", v)])]) ∧
    MongoWhereParser.parse (.chainWhere [(f, .clause .isFalse v)]) =
      .ok (.obj [(f, .obj [("$eq", v)])]) ∧
    MongoWhereParser.parse (.chainWhere [(f, .clause .is0 v)]) =
      .ok (.obj [(f, .obj [("$eq", v)])]) ∧
    MongoWhereParser.parse (.chainWhere [(f, .clause .is1 v)]) =
      .ok (.obj [(f, .obj [("$eq", v)])]) ∧
    MongoWhereParser.parse (.chainWhere [(f, .clause .isNotNull v)]) =
      .ok (.obj [(f, .obj [("$ne", v)])]) ∧
    MongoWhereParser.parse (.chainWhere [(f, .clause .isNull v)]) =
      .ok (.obj [(f, .obj [("$eq", .null)])]) ∧
    MongoWhereParser.parse (.chainWhere [(f, .clause .isEmpty v)]) =
      .ok (.obj [(f, .obj [("$or", .arr [.obj [("$eq", .str "")],
        .obj [("$eq", .arr [])], .obj [("$eq", .obj [])]])])]) ∧
    MongoWhereParser.parse (.chainWhere [(f, .clause .isNotEmpty v)]) =
      .ok (.obj [(f, .obj [("$and", .arr [.obj [("$ne", .str "")],
        .obj [("$ne", .arr [])], .obj [("$ne", .obj [])]])])]) ∧
    MongoWhereParser.parse (.chainWhere [(f, .between lo hi)]) =
      .ok (.obj [(f, .obj [("$gte", lo), ("$lte", hi)])]) := by
  refine ⟨rfl, rfl, rfl, rfl, rfl, rfl, rfl, rfl, rfl, rfl, rfl, rfl, rfl,
    rfl, rfl, rfl, rfl, rfl, rfl⟩

/-- C6: parsing the logical node `and([a, b])` yields `$and` over the
parses of the operands, and likewise for `or`; the same compositional
equation holds for operand lists of every length (stated through
`MongoWhereParser.parseOperands`, the embedding of `values.map(this.parse)`),
and therefore recursively at arbitrary nesting depth. -/
theorem whereParser_logical_composition :
    (∀ (a b : WhereInput) (ra rb : MValue),
      MongoWhereParser.parse a = .ok ra →
      MongoWhereParser.parse b = .ok rb →
      MongoWhereParser.parse (.plainObj [("and", [a, b])]) =
        .ok (.obj [("$and", .arr [ra, rb])])) ∧
    (∀ (a b : WhereInput) (ra rb : MValue),
      MongoWhereParser.parse a = .ok ra →
      MongoWhereParser.parse b = .ok rb →
      MongoWhereParser.parse (.plainObj [("or", [a, b])]) =
        .ok (.obj [("$or", .arr [ra, rb])])) ∧
    (∀ (operands : List WhereInput),
      MongoWhereParser.parse (.plainObj [("and", operands)]) =
        (MongoWhereParser.parseOperands operands).map fun results =>
          .obj [("$and", .arr results)]) ∧
    (∀ (operands : List WhereInput),
      MongoWhereParser.parse (.plainObj [("or", operands)]) =
        (MongoWhereParser.parseOperands operands).map fun results =>
          .obj [("$or", .arr results)]) := by
  refine ⟨?_, ?_, fun operands => rfl, fun operands => rfl⟩
  · intro a b ra rb ha hb
    simp only [MongoWhereParser.parse, MongoWhereParser.parseOperands, ha, hb]
    rfl
  · intro a b ra rb ha hb
    simp only [MongoWhereParser.parse, MongoWhereParser.parseOperands, ha, hb]
    rfl

/-- C6 witness: the compositional equations instantiated at concrete
operands (two single-field chains combined under `and`). -/
theorem whereParser_logical_composition_witness :
    MongoWhereParser.parse (.plainObj [("and",
      [.chainWhere [("name", .clause .isEq (.str "John"))],
       .chainWhere [("age", .clause .isGt (.num 25))]])]) =
      .ok (.obj [("$and", .arr [.obj [("name", .obj [("$eq", .str "John")])],
        .obj [("age", .obj [("$gt", .num 25)])]])]) :=
  whereParser_logical_composition.1
    (.chainWhere [("name", .clause .isEq (.str "John"))])
    (.chainWhere [("age", .clause .isGt (.num 25))])
    (.obj [("name", .obj [("$eq", .str "John")])])
    (.obj [("age", .obj [("$gt", .num 25)])]) rfl rfl

/-- C7: the parser fails with an `UnsupportedOperatorError` naming the
offending token in both failure cases: a leaf whose operator has no entry
in the operator map (the error names the operator's printable name), and a
plain object whose first key is neither "and" nor "or" (the error names
that key). -/
theorem whereParser_unsupported_naming :
    (∀ (operator : WhereOperator), MongoWhereParser.operatorMap operator = none →
      ∀ (f : String) (v : MValue),
        MongoWhereParser.parse (.chainWhere [(f, .clause operator v)]) =
          .error (.unsupportedOperator operator.printableName)) ∧
    (∀ (key : String) (operands : List WhereInput)
        (rest : List (String × List WhereInput)),
      key ≠ "and" → key ≠ "or" →
      MongoWhereParser.parse (.plainObj ((key, operands) :: rest)) =
        .error (.unsupportedOperator key)) := by
  constructor
  · intro operator hmap f v
    simp only [MongoWhereParser.parse, MongoWhereParser.parseChain,
      MongoWhereParser.clauseToFilter, hmap]
    rfl
  · intro key operands rest hand hor
    simp [MongoWhereParser.parse, hand, hor]

/-- C7 witness: the naming behaviour at concrete inputs — an injected
unmapped operator whose reverse-lookup prints "undefined", and the plain
object key "unknownOperator" from the unit test. -/
theorem whereParser_unsupported_naming_witness :
    MongoWhereParser.parse
        (.chainWhere [("name", .clause (.unknownOp "undefined") (.str "x"))]) =
      .error (.unsupportedOperator "undefined") ∧
    MongoWhereParser.parse
        (.plainObj [("unknownOperator", [.rawWhere (.str "value")])]) =
      .error (.unsupportedOperator "unknownOperator") :=
  ⟨whereParser_unsupported_naming.1 (.unknownOp "undefined") rfl "name" (.str "x"),
   whereParser_unsupported_naming.2 "unknownOperator" [.rawWhere (.str "value")] []
     (by decide) (by decide)⟩

/-- C9: a plain (non-`Where`) object is dispatched on its first enumerated
key only: when that key is "and" or "or", every additional top-level entry
is silently ignored — the result is exactly the connective built from the
first key's operand list, identical to parsing the object with the extra
entries removed. -/
theorem whereParser_first_key_only (operands : List WhereInput)
    (rest : List (String × List WhereInput)) :
    MongoWhereParser.parse (.plainObj (("and", operands) :: rest)) =
      (MongoWhereParser.parseOperands operands).map (fun results =>
        .obj [("$and", .arr results)]) ∧
    MongoWhereParser.parse (.plainObj (("or", operands) :: rest)) =
      (MongoWhereParser.parseOperands operands).map (fun results =>
        .obj [("$or", .arr results)]) ∧
    MongoWhereParser.parse (.plainObj (("and", operands) :: rest)) =
      MongoWhereParser.parse (.plainObj [("and", operands)]) ∧
    MongoWhereParser.parse (.plainObj (("or", operands) :: rest)) =
      MongoWhereParser.parse (.plainObj [("or", operands)]) :=
  ⟨rfl, rfl, rfl, rfl⟩

/-- Valid update methods (`UpdateMethod` from the aw-core dependency). -/
inductive UpdateMethod where
  | updateOne
  | updateMany
deriving DecidableEq

/-- A method entry as received by `buildUpdateQuery`; `unknown name` stands
for any value other than `UpdateOne` / `UpdateMany`, carrying the printable
form used in the unknown-method error message. -/
inductive UpdateMethodInput where
  | updateOne
  | updateMany
  | unknown (name : String)
deriving DecidableEq

/-- Errors raised by the query builders: the parameter-count error naming
all three argument counts, the unknown-method error naming the offending
entry, and propagation of a where-translation failure. -/
inductive BuildError where
  | parameterCountMismatch (updates wheres methods : Nat)
  | unknownMethod (name : String)
  | whereParseFailure (error : ParseError)
deriving DecidableEq

/-- Modelled from the spec: `buildUpdateQuery` requires each method to be
one of `UpdateOne` / `UpdateMany`; the first entry that is neither fails
with an unknown-method error naming it (mongo.query-builders.ts is not
among the available sources; the behaviour is pinned by its unit test). -/
def MongoQueryBuilders.validateMethods :
    List UpdateMethodInput → Except BuildError (List UpdateMethod)
  | [] => .ok []
  | .updateOne :: rest =>
    (MongoQueryBuilders.validateMethods rest).map fun ms => .updateOne :: ms
  | .updateMany :: rest =>
    (MongoQueryBuilders.validateMethods rest).map fun ms => .updateMany :: ms
  | .unknown name :: _ => .error (.unknownMethod name)

/-- Translation of each where clause of `buildUpdateQuery` through
`MongoWhereParser.parse`, aborting on the first failure (JavaScript
exception propagation). -/
def MongoQueryBuilders.parseWheres :
    List WhereInput → Except BuildError (List MValue)
  | [] => .ok []
  | w :: rest => do
    let filter ← (MongoWhereParser.parse w).mapError BuildError.whereParseFailure
    let filters ← MongoQueryBuilders.parseWheres rest
    .ok (filter :: filters)

/-- Options of the single-command result of `buildUpdateQuery`: per the
unit test, `\x7b upsert: true \x7d` for `UpdateOne` and no options entry
for `UpdateMany`. -/
def MongoQueryBuilders.singleUpdateOptions : UpdateMethod → Option MValue
  | .updateOne => some (.obj [("upsert", .bool true)])
  | .updateMany => none

/-- One bulk-operation document of `buildUpdateQuery`: `updateOne` entries
carry `upsert: true`, `updateMany` entries do not. -/
def MongoQueryBuilders.bulkDocOf (filter update : MValue) : UpdateMethod → MValue
  | .updateOne => .obj [("updateOne",
      .obj [("filter", filter), ("update", update), ("upsert", .bool true)])]
  | .updateMany => .obj [("updateMany",
      .obj [("filter", filter), ("update", update)])]

/-- Result of `buildUpdateQuery`: a single command object (one triple) or
a list of bulk-operation documents. -/
inductive UpdateQueryResult where
  | single (filter update : MValue) (options : Option MValue) (method : UpdateMethod)
  | bulk (operations : List MValue)

/-- Final shaping of `buildUpdateQuery`: exactly one built triple yields
the single command object, any other number yields the bulk-operation
list. -/
def MongoQueryBuilders.shapeUpdateResult :
    List (MValue × MValue × UpdateMethod) → UpdateQueryResult
  | [(filter, update, method)] =>
    .single filter update (MongoQueryBuilders.singleUpdateOptions method) method
  | triples =>
    .bulk (triples.map fun t => MongoQueryBuilders.bulkDocOf t.1 t.2.1 t.2.2)

/-- Modelled from the spec: `buildUpdateQuery(updates, wheres, methods)`
from mongo.query-builders.ts (not among the available sources; behaviour
pinned by src/src/__tests__/mongo.query-builders.unit.test.ts lines
65-160). The three arrays must have equal lengths, otherwise the
parameter-count error names all three counts; every method must be
`UpdateOne` / `UpdateMany`, otherwise the unknown-method error names the
offending entry; each update document is wrapped as `\x7b $set: fields \x7d`
and each where clause translated by `MongoWhereParser.parse`; one triple
yields a single command object, several yield bulk documents in input
order. -/
def MongoQueryBuilders.buildUpdateQuery (updates : List MValue)
    (wheres : List WhereInput) (methods : List UpdateMethodInput) :
    Except BuildError UpdateQueryResult :=
  if updates.length = wheres.length ∧ wheres.length = methods.length then
    (MongoQueryBuilders.validateMethods methods).bind fun ms =>
    (MongoQueryBuilders.parseWheres wheres).bind fun filters =>
    .ok (MongoQueryBuilders.shapeUpdateResult
      (filters.zip ((updates.map fun u => MValue.obj [("$set", u)]).zip ms)))
  else
    .error (.parameterCountMismatch updates.length wheres.length methods.length)

/-- The method validation fails on the first entry that is neither
`updateOne` nor `updateMany`, naming it. -/
theorem MongoQueryBuilders.validateMethods_first_unknown
    (pre : List UpdateMethodInput) (name : String)
    (rest : List UpdateMethodInput)
    (hpre : ∀ m ∈ pre, m = .updateOne ∨ m = .updateMany) :
    MongoQueryBuilders.validateMethods (pre ++ .unknown name :: rest) =
      .error (.unknownMethod name) := by
  induction pre with
  | nil => rfl
  | cons m pre ih =>
    rcases hpre m (List.mem_cons_self m pre) with h | h <;> subst h <;>
      simp [MongoQueryBuilders.validateMethods, exceptMap_error,
        ih fun m hm => hpre m (List.mem_cons_of_mem _ hm)]

/-- Successful where translation preserves the number of clauses. -/
theorem MongoQueryBuilders.parseWheres_length (wheres : List WhereInput)
    (filters : List MValue)
    (h : MongoQueryBuilders.parseWheres wheres = .ok filters) :
    filters.length = wheres.length := by
  induction wheres generalizing filters with
  | nil =>
    simp only [MongoQueryBuilders.parseWheres] at h
    cases h
    rfl
  | cons w rest ih =>
    simp only [MongoQueryBuilders.parseWheres] at h
    cases hw : (MongoWhereParser.parse w).mapError BuildError.whereParseFailure with
    | error e => rw [hw] at h; cases h
    | ok filter =>
      rw [hw] at h
      cases hr : MongoQueryBuilders.parseWheres rest with
      | error e => simp [hr, exceptBind_ok, exceptBind_error] at h
      | ok filters' =>
        simp only [hr, exceptBind_ok] at h
        cases h
        simp [ih filters' hr]

/-- Successful method validation preserves the number of methods. -/
theorem MongoQueryBuilders.validateMethods_length
    (methods : List UpdateMethodInput) (ms : List UpdateMethod)
    (h : MongoQueryBuilders.validateMethods methods = .ok ms) :
    ms.length = methods.length := by
  induction methods generalizing ms with
  | nil =>
    simp only [MongoQueryBuilders.validateMethods] at h
    cases h
    rfl
  | cons m rest ih =>
    cases m with
    | unknown name => simp [MongoQueryBuilders.validateMethods] at h
    | updateOne =>
      simp only [MongoQueryBuilders.validateMethods] at h
      cases hr : MongoQueryBuilders.validateMethods rest with
      | error e => simp [hr, exceptMap_error] at h
      | ok ms' =>
        simp only [hr, exceptMap_ok] at h
        cases h
        simp [ih ms' hr]
    | updateMany =>
      simp only [MongoQueryBuilders.validateMethods] at h
      cases hr : MongoQueryBuilders.validateMethods rest with
      | error e => simp [hr, exceptMap_error] at h
      | ok ms' =>
        simp only [hr, exceptMap_ok] at h
        cases h
        simp [ih ms' hr]

/-- C4: `buildUpdateQuery(updates, wheres, methods)` fails with a
parameter-count error naming all three lengths whenever the arrays differ
in length; fails with an unknown-method error naming the offending entry
when a method is neither `UpdateOne` nor `UpdateMany`; one valid triple
yields a single command object whose options carry `upsert: true` exactly
when the method is `UpdateOne` (and no options otherwise); `N > 1` triples
yield `N` bulk documents in input order, `updateOne` entries shaped with
`upsert: true` and `updateMany` entries without an upsert key. -/
theorem buildUpdateQuery_spec :
    (∀ (updates : List MValue) (wheres : List WhereInput)
        (methods : List UpdateMethodInput),
      ¬(updates.length = wheres.length ∧ wheres.length = methods.length) →
      MongoQueryBuilders.buildUpdateQuery updates wheres methods =
        .error (.parameterCountMismatch updates.length wheres.length
          methods.length)) ∧
    (∀ (updates : List MValue) (wheres : List WhereInput)
        (pre : List UpdateMethodInput) (name : String)
        (rest : List UpdateMethodInput),
      updates.length = wheres.length →
      wheres.length = (pre ++ .unknown name :: rest).length →
      (∀ m ∈ pre, m = .updateOne ∨ m = .updateMany) →
      MongoQueryBuilders.buildUpdateQuery updates wheres
          (pre ++ .unknown name :: rest) =
        .error (.unknownMethod name)) ∧
    (∀ (u : MValue) (w : WhereInput) (filter : MValue),
      MongoWhereParser.parse w = .ok filter →
      MongoQueryBuilders.buildUpdateQuery [u] [w] [.updateOne] =
        .ok (.single filter (.obj [("$set", u)])
          (some (.obj [("upsert", .bool true)])) .updateOne)) ∧
    (∀ (u : MValue) (w : WhereInput) (filter : MValue),
      MongoWhereParser.parse w = .ok filter →
      MongoQueryBuilders.buildUpdateQuery [u] [w] [.updateMany] =
        .ok (.single filter (.obj [("$set", u)]) none .updateMany)) ∧
    (∀ (updates : List MValue) (wheres : List WhereInput)
        (methods : List UpdateMethodInput) (filters : List MValue)
        (ms : List UpdateMethod),
      MongoQueryBuilders.parseWheres wheres = .ok filters →
      MongoQueryBuilders.validateMethods methods = .ok ms →
      updates.length = wheres.length → wheres.length = methods.length →
      2 ≤ updates.length →
      MongoQueryBuilders.buildUpdateQuery updates wheres methods =
        .ok (.bulk ((filters.zip
            ((updates.map fun u => MValue.obj [("$set", u)]).zip ms)).map
          fun t =>
            match t.2.2 with
            | .updateOne => .obj [("updateOne", .obj [("filter", t.1),
                ("update", t.2.1), ("upsert", .bool true)])]
            | .updateMany => .obj [("updateMany", .obj [("filter", t.1),
                ("update", t.2.1)])]))) := by
  refine ⟨?_, ?_, ?_, ?_, ?_⟩
  · intro updates wheres methods h
    simp [MongoQueryBuilders.buildUpdateQuery, h]
  · intro updates wheres pre name rest h1 h2 hpre
    rw [MongoQueryBuilders.buildUpdateQuery, if_pos ⟨h1, h2⟩,
      MongoQueryBuilders.validateMethods_first_unknown pre name rest hpre]
    rfl
  · intro u w filter hw
    rw [MongoQueryBuilders.buildUpdateQuery, if_pos (by simp)]
    show (MongoQueryBuilders.validateMethods [.updateOne]).bind _ = _
    rw [show MongoQueryBuilders.validateMethods [.updateOne] =
        .ok [.updateOne] from rfl]
    show (MongoQueryBuilders.parseWheres [w]).bind _ = _
    simp only [MongoQueryBuilders.parseWheres, hw]
    rfl
  · intro u w filter hw
    rw [MongoQueryBuilders.buildUpdateQuery, if_pos (by simp)]
    show (MongoQueryBuilders.validateMethods [.updateMany]).bind _ = _
    rw [show MongoQueryBuilders.validateMethods [.updateMany] =
        .ok [.updateMany] from rfl]
    show (MongoQueryBuilders.parseWheres [w]).bind _ = _
    simp only [MongoQueryBuilders.parseWheres, hw]
    rfl
  · intro updates wheres methods filters ms hp hv h1 h2 hlen
    rw [MongoQueryBuilders.buildUpdateQuery, if_pos ⟨h1, h2⟩, hv, hp]
    have hfl : filters.length = updates.length :=
      (MongoQueryBuilders.parseWheres_length wheres filters hp).trans h1.symm
    have hml : ms.length = updates.length :=
      (MongoQueryBuilders.validateMethods_length methods ms hv).trans
        (h1.trans h2).symm
    have hzl : (filters.zip
        ((updates.map fun u => MValue.obj [("$set", u)]).zip ms)).length =
        updates.length := by
      simp [List.length_zip, hfl, hml]
    rcases hz : filters.zip
        ((updates.map fun u => MValue.obj [("$set", u)]).zip ms) with
      _ | ⟨x, _ | ⟨y, t⟩⟩
    · rw [hz] at hzl; simp at hzl; omega
    · rw [hz] at hzl; simp at hzl; omega
    · show Except.ok (MongoQueryBuilders.shapeUpdateResult (filters.zip
          ((updates.map fun u => MValue.obj [("$set", u)]).zip ms))) = _
      rw [hz]
      rfl

/-- C4 witness: `buildUpdateQuery` at the unit test's concrete inputs —
mismatched lengths, an unknown method entry, one `UpdateOne` triple, one
`UpdateMany` triple, and two triples yielding bulk documents. -/
theorem buildUpdateQuery_spec_witness :
    MongoQueryBuilders.buildUpdateQuery
        [.obj [("name", .str "John")], .obj [("name", .str "Jane")]]
        [.chainWhere [("age", .clause .isGte (.num 18))]]
        [.updateOne, .updateMany] =
      .error (.parameterCountMismatch 2 1 2) ∧
    MongoQueryBuilders.buildUpdateQuery
        [.obj [("name", .str "John")]]
        [.chainWhere [("age", .clause .isGte (.num 18))]]
        [.unknown "unknownMethod"] =
      .error (.unknownMethod "unknownMethod") ∧
    MongoQueryBuilders.buildUpdateQuery
        [.obj [("name", .str "John")]]
        [.chainWhere [("age", .clause .isGte (.num 18))]]
        [.updateOne] =
      .ok (.single (.obj [("age", .obj [("$gte", .num 18)])])
        (.obj [("$set", .obj [("name", .str "John")])])
        (some (.obj [("upsert", .bool true)])) .updateOne) ∧
    MongoQueryBuilders.buildUpdateQuery
        [.obj [("name", .str "John")]]
        [.chainWhere [("age", .clause .isGte (.num 18))]]
        [.updateMany] =
      .ok (.single (.obj [("age", .obj [("$gte", .num 18)])])
        (.obj [("$set", .obj [("name", .str "John")])]) none .updateMany) ∧
    MongoQueryBuilders.buildUpdateQuery
        [.obj [("name", .str "John")], .obj [("name", .str "Jane")]]
        [.chainWhere [("age", .clause .isGte (.num 18))],
         .chainWhere [("age", .clause .isLt (.num 18))]]
        [.updateOne, .updateMany] =
      .ok (.bulk
        [.obj [("updateOne", .obj
          [("filter", .obj [("age", .obj [("$gte", .num 18)])]),
           ("update", .obj [("$set", .obj [("name", .str "John")])]),
           ("upsert", .bool true)])],
         .obj [("updateMany", .obj
          [("filter", .obj [("age", .obj [("$lt", .num 18)])]),
           ("update", .obj [("$set", .obj [("name", .str "Jane")])])])]]) :=
  ⟨buildUpdateQuery_spec.1
      [.obj [("name", .str "John")], .obj [("name", .str "Jane")]]
      [.chainWhere [("age", .clause .isGte (.num 18))]]
      [.updateOne, .updateMany] (by decide),
   buildUpdateQuery_spec.2.1
      [.obj [("name", .str "John")]]
      [.chainWhere [("age", .clause .isGte (.num 18))]]
      [] "unknownMethod" [] rfl rfl (by simp),
   buildUpdateQuery_spec.2.2.1
      (.obj [("name", .str "John")])
      (.chainWhere [("age", .clause .isGte (.num 18))])
      (.obj [("age", .obj [("$gte", .num 18)])]) rfl,
   buildUpdateQuery_spec.2.2.2.1
      (.obj [("name", .str "John")])
      (.chainWhere [("age", .clause .isGte (.num 18))])
      (.obj [("age", .obj [("$gte", .num 18)])]) rfl,
   buildUpdateQuery_spec.2.2.2.2
      [.obj [("name", .str "John")], .obj [("name", .str "Jane")]]
      [.chainWhere [("age", .clause .isGte (.num 18))],
       .chainWhere [("age", .clause .isLt (.num 18))]]
      [.updateOne, .updateMany]
      [.obj [("age", .obj [("$gte", .num 18)])],
       .obj [("age", .obj [("$lt", .num 18)])]]
      [.updateOne, .updateMany] rfl rfl rfl rfl (by decide)⟩

/-- Domain-level aggregation request (`AggregationParams` from aw-core) as
consumed by `buildAggregationQuery`: optional group-by fields, two optional
condition expressions (`filterBy` and the source's `where` parameter,
renamed `whereQuery` because `where` is a Lean keyword), an optional sort
document, the four optional aggregate field names and the count flag. -/
structure AggregationParams where
  groupBy : Option (List String)
  filterBy : Option WhereInput
  sort : Option MValue
  sum : Option String
  average : Option String
  min : Option String
  max : Option String
  count : Bool
  whereQuery : Option WhereInput

/-- Native aggregate command parameters: the pipeline stages and the
options object (`MongoAggregateParams` from src/src/mongo.types.ts). -/
structure MongoAggregateParams where
  pipeline : List MValue
  options : MValue

/-- Entries of the single `$group` stage, in the order the unit test pins:
an `_id` object with one entry per `groupBy` field (each mapped to its
`$field` path), then one accumulator per requested aggregate — `totalSum`
via `$sum`, `average` via `$avg`, `min` via `$min`, `max` via `$max`, and
`count` as a literal count via `$sum: 1` — with entries for absent
aggregates omitted. -/
def MongoQueryBuilders.groupStageFields (params : AggregationParams) :
    List (String × MValue) :=
  (match params.groupBy with
   | some fields =>
     [("_id", MValue.obj (fields.map fun f => (f, MValue.str ("$" ++ f))))]
   | none => [])
  ++ (match params.sum with
   | some field => [("totalSum", MValue.obj [("$sum", .str ("$" ++ field))])]
   | none => [])
  ++ (match params.average with
   | some field => [("average", MValue.obj [("$avg", .str ("$" ++ field))])]
   | none => [])
  ++ (match params.min with
   | some field => [("min", MValue.obj [("$min", .str ("$" ++ field))])]
   | none => [])
  ++ (match params.max with
   | some field => [("max", MValue.obj [("$max", .str ("$" ++ field))])]
   | none => [])
  ++ (if params.count then [("count", MValue.obj [("$sum", .num 1)])] else [])

/-- Translation of an optional condition parameter: absent parameters
contribute nothing, present ones go through `MongoWhereParser.parse` with
failure propagated. -/
def MongoQueryBuilders.parseOptionalWhere :
    Option WhereInput → Except ParseError (Option MValue)
  | none => .ok none
  | some w => (MongoWhereParser.parse w).map some

/-- The `$match` stage contributed by an optional translated condition:
one stage when the condition is present, none otherwise. -/
def MongoQueryBuilders.matchStages : Option MValue → List MValue
  | some doc => [.obj [("$match", doc)]]
  | none => []

/-- Modelled from the spec: `buildAggregationQuery` from
mongo.query-builders.ts (not among the available sources). Per spec
section 4.2 the pipeline has the fixed stage order "one $match, then a
single $group combining _id with the requested aggregates, then $sort,
then a trailing $match", every stage whose driving parameter is absent
being omitted; the spec assigns `params.filterBy` to the leading `$match`
and `params.where` to the trailing one, but the repository's own unit test
(src/src/__tests__/mongo.query-builders.unit.test.ts lines 191-241) pins
the opposite assignment — the leading `$match` is built from `params.where`
and the trailing one from `params.filterBy` — so the model follows the
test. The options object is always the empty object, as the test pins. -/
def MongoQueryBuilders.buildAggregationQuery (params : AggregationParams) :
    Except ParseError MongoAggregateParams := do
  let whereDoc ← MongoQueryBuilders.parseOptionalWhere params.whereQuery
  let filterByDoc ← MongoQueryBuilders.parseOptionalWhere params.filterBy
  .ok ⟨MongoQueryBuilders.matchStages whereDoc
      ++ (if (MongoQueryBuilders.groupStageFields params).isEmpty then []
          else [MValue.obj [("$group",
            .obj (MongoQueryBuilders.groupStageFields params))]])
      ++ (match params.sort with
          | some s => [MValue.obj [("$sort", s)]]
          | none => [])
      ++ MongoQueryBuilders.matchStages filterByDoc,
    .obj []⟩

/-- The aggregation request of the repository's unit test: group by name,
filter by age at least 18, sort by name, sum salary, average rating,
min/max age, count, where department equals Sales. -/
def testAggregationParams : AggregationParams :=
  ⟨some ["name"],
   some (.chainWhere [("age", .clause .isGte (.num 18))]),
   some (.obj [("name", .num 1)]),
   some "salary", some "rating", some "age", some "age", true,
   some (.chainWhere [("department", .clause .isEq (.str "Sales"))])⟩

/-- C1 counterexample: at the unit test's aggregation request the pipeline
opens with the `$match` built from `params.where` (department = Sales) and
closes with the `$match` built from `params.filterBy` (age >= 18) — the
opposite of the claimed assignment, so the pipeline differs from the one
the claim predicts (filterBy-match first, where-match last). -/
theorem buildAggregationQuery_claim_order_refuted :
    MongoQueryBuilders.buildAggregationQuery testAggregationParams =
      .ok ⟨[.obj [("$match", .obj [("department", .obj [("$eq", .str "Sales")])])],
            .obj [("$group", .obj
              [("_id", .obj [("name", .str "$name")]),
               ("totalSum", .obj [("$sum", .str "$salary")]),
               ("average", .obj [("$avg", .str "$rating")]),
               ("min", .obj [("$min", .str "$age")]),
               ("max", .obj [("$max", .str "$age")]),
               ("count", .obj [("$sum", .num 1)])])],
            .obj [("$sort", .obj [("name", .num 1)])],
            .obj [("$match", .obj [("age", .obj [("$gte", .num 18)])])]],
           .obj []⟩ ∧
    MongoQueryBuilders.buildAggregationQuery testAggregationParams ≠
      .ok ⟨[.obj [("$match", .obj [("age", .obj [("$gte", .num 18)])])],
            .obj [("$group", .obj
              [("_id", .obj [("name", .str "$name")]),
               ("totalSum", .obj [("$sum", .str "$salary")]),
               ("average", .obj [("$avg", .str "$rating")]),
               ("min", .obj [("$min", .str "$age")]),
               ("max", .obj [("$max", .str "$age")]),
               ("count", .obj [("$sum", .num 1)])])],
            .obj [("$sort", .obj [("name", .num 1)])],
            .obj [("$match", .obj [("department", .obj [("$eq", .str "Sales")])])]],
           .obj []⟩ := by
  constructor
  · rfl
  · intro h
    rw [show MongoQueryBuilders.buildAggregationQuery testAggregationParams =
      .ok ⟨[.obj [("$match", .obj [("department", .obj [("$eq", .str "Sales")])])],
            .obj [("$group", .obj
              [("_id", .obj [("name", .str "$name")]),
               ("totalSum", .obj [("$sum", .str "$salary")]),
               ("average", .obj [("$avg", .str "$rating")]),
               ("min", .obj [("$min", .str "$age")]),
               ("max", .obj [("$max", .str "$age")]),
               ("count", .obj [("$sum", .num 1)])])],
            .obj [("$sort", .obj [("name", .num 1)])],
            .obj [("$match", .obj [("age", .obj [("$gte", .num 18)])])]],
           .obj []⟩ from rfl] at h
    simp at h

/-- C1 (amended): for every aggregation request whose condition parameters
translate successfully, `buildAggregationQuery` produces a pipeline in the
fixed stage order — a `$match` built from `params.where` first (when
present), then a single `$group` stage combining one `_id` entry per
`groupBy` field with one accumulator per requested aggregate, then `$sort`
(when present), then a trailing `$match` built from `params.filterBy` last
(when present) — every stage whose driving parameter is absent being
omitted entirely, so a request with no parameters yields the empty
pipeline. -/
theorem buildAggregationQuery_stage_order
    (params : AggregationParams) (whereDoc filterByDoc : Option MValue)
    (hw : MongoQueryBuilders.parseOptionalWhere params.whereQuery = .ok whereDoc)
    (hf : MongoQueryBuilders.parseOptionalWhere params.filterBy = .ok filterByDoc) :
    MongoQueryBuilders.buildAggregationQuery params =
      .ok ⟨(whereDoc.map fun d => MValue.obj [("$match", d)]).toList
        ++ (match MongoQueryBuilders.groupStageFields params with
            | [] => []
            | g => [MValue.obj [("$group", .obj g)]])
        ++ (params.sort.map fun s => MValue.obj [("$sort", s)]).toList
        ++ (filterByDoc.map fun d => MValue.obj [("$match", d)]).toList,
        .obj []⟩ := by
  simp only [MongoQueryBuilders.buildAggregationQuery, hw, hf, exceptBind_ok]
  generalize MongoQueryBuilders.groupStageFields params = g
  generalize params.sort = srt
  cases whereDoc <;> cases filterByDoc <;> cases srt <;> cases g <;> rfl

/-- C1 witness: the amended stage-order theorem instantiated at the unit
test's request (all parameters present) and at the empty request (empty
pipeline). -/
theorem buildAggregationQuery_stage_order_witness :
    MongoQueryBuilders.buildAggregationQuery testAggregationParams =
      .ok ⟨[.obj [("$match", .obj [("department", .obj [("$eq", .str "Sales")])])],
            .obj [("$group", .obj
              [("_id", .obj [("name", .str "$name")]),
               ("totalSum", .obj [("$sum", .str "$salary")]),
               ("average", .obj [("$avg", .str "$rating")]),
               ("min", .obj [("$min", .str "$age")]),
               ("max", .obj [("$max", .str "$age")]),
               ("count", .obj [("$sum", .num 1)])])],
            .obj [("$sort", .obj [("name", .num 1)])],
            .obj [("$match", .obj [("age", .obj [("$gte", .num 18)])])]],
           .obj []⟩ ∧
    MongoQueryBuilders.buildAggregationQuery
        ⟨none, none, none, none, none, none, none, false, none⟩ =
      .ok ⟨[], .obj []⟩ :=
  ⟨buildAggregationQuery_stage_order testAggregationParams
      (some (.obj [("department", .obj [("$eq", .str "Sales")])]))
      (some (.obj [("age", .obj [("$gte", .num 18)])])) rfl rfl,
   buildAggregationQuery_stage_order
      ⟨none, none, none, none, none, none, none, false, none⟩
      none none rfl rfl⟩

/-- Client-side session state of a `MongoCollectionSource` instance:
`idle` when `currentSession` is null, `active` when a session object is
held. -/
inductive SessionState where
  | idle
  | active
deriving DecidableEq

/-- Oracle for the underlying driver's session operations: whether the
`startSession`/`startTransaction` pair, `commitTransaction` and
`abortTransaction` calls succeed or throw. -/
structure DriverBehavior where
  startOk : Bool
  commitOk : Bool
  abortOk : Bool

/-- Errors the transaction methods raise, both wrapped through
`DataSourceError.createError`: one wrapping `PendingSessionError`, one
wrapping `SessionError` around the driver's failure. -/
inductive TxnError where
  | pendingSession
  | sessionError
deriving DecidableEq

/-- Observable result of one transaction method call: the raised error if
any, the session state the instance is left in, and whether the driver's
session machinery was contacted. -/
structure TxnStep where
  error : Option TxnError
  state : SessionState
  driverCalled : Bool
deriving DecidableEq

/-- `startTransaction` from src/src/mongo.collection.source.ts lines
286-296: with a session already held it throws the wrapped
`PendingSessionError` without contacting the driver; otherwise it starts a
session and a transaction, becoming active on success and staying idle
when the driver's session start throws (wrapped as a session error). -/
def MongoCollectionSource.startTransaction :
    SessionState → DriverBehavior → TxnStep
  | .active, _ => ⟨some .pendingSession, .active, false⟩
  | .idle, d =>
    if d.startOk then ⟨none, .active, true⟩
    else ⟨some .sessionError, .idle, true⟩

/-- `commitTransaction` from src/src/mongo.collection.source.ts lines
302-312: a no-op without an active session; otherwise commit and end the
session, clearing `currentSession` on success and leaving it held (state
still active) when the driver's commit throws (wrapped as a session
error). -/
def MongoCollectionSource.commitTransaction :
    SessionState → DriverBehavior → TxnStep
  | .idle, _ => ⟨none, .idle, false⟩
  | .active, d =>
    if d.commitOk then ⟨none, .idle, true⟩
    else ⟨some .sessionError, .active, true⟩

/-- `rollbackTransaction` from src/src/mongo.collection.source.ts lines
318-328: a no-op without an active session; otherwise abort and end the
session, clearing `currentSession` on success and leaving the session held
when the driver's abort throws. -/
def MongoCollectionSource.rollbackTransaction :
    SessionState → DriverBehavior → TxnStep
  | .idle, _ => ⟨none, .idle, false⟩
  | .active, d =>
    if d.abortOk then ⟨none, .idle, true⟩
    else ⟨some .sessionError, .active, true⟩

/-- C2: the transactional session life cycle keeps at most one active
session per adapter instance — `startTransaction` while a session is
active fails with the pending-session error without contacting the
driver's session start and leaves the session active; `commitTransaction`
and `rollbackTransaction` with no active session are no-ops rather than
errors; a commit whose driver call fails throws a wrapped session error
and leaves the session active (not released); a successful commit or
rollback ends the session and returns the instance to the idle state. -/
theorem transactionalSession_lifecycle (d : DriverBehavior) :
    MongoCollectionSource.startTransaction .active d =
      ⟨some .pendingSession, .active, false⟩ ∧
    MongoCollectionSource.commitTransaction .idle d = ⟨none, .idle, false⟩ ∧
    MongoCollectionSource.rollbackTransaction .idle d = ⟨none, .idle, false⟩ ∧
    (d.commitOk = false →
      MongoCollectionSource.commitTransaction .active d =
        ⟨some .sessionError, .active, true⟩) ∧
    (d.commitOk = true →
      MongoCollectionSource.commitTransaction .active d = ⟨none, .idle, true⟩) ∧
    (d.abortOk = true →
      MongoCollectionSource.rollbackTransaction .active d =
        ⟨none, .idle, true⟩) := by
  refine ⟨rfl, rfl, rfl, ?_, ?_, ?_⟩ <;> intro h <;>
    simp [MongoCollectionSource.commitTransaction,
      MongoCollectionSource.rollbackTransaction, h]

/-- C2 witness: the life-cycle equations at two concrete driver
behaviours — one whose commit fails and one where every driver call
succeeds. -/
theorem transactionalSession_lifecycle_witness :
    MongoCollectionSource.startTransaction .active ⟨true, false, true⟩ =
      ⟨some .pendingSession, .active, false⟩ ∧
    MongoCollectionSource.commitTransaction .active ⟨true, false, true⟩ =
      ⟨some .sessionError, .active, true⟩ ∧
    MongoCollectionSource.commitTransaction .active ⟨true, true, true⟩ =
      ⟨none, .idle, true⟩ ∧
    MongoCollectionSource.rollbackTransaction .active ⟨true, true, true⟩ =
      ⟨none, .idle, true⟩ ∧
    MongoCollectionSource.commitTransaction .idle ⟨true, false, true⟩ =
      ⟨none, .idle, false⟩ ∧
    MongoCollectionSource.rollbackTransaction .idle ⟨true, false, true⟩ =
      ⟨none, .idle, false⟩ :=
  ⟨(transactionalSession_lifecycle ⟨true, false, true⟩).1,
   (transactionalSession_lifecycle ⟨true, false, true⟩).2.2.2.1 rfl,
   (transactionalSession_lifecycle ⟨true, true, true⟩).2.2.2.2.1 rfl,
   (transactionalSession_lifecycle ⟨true, true, true⟩).2.2.2.2.2 rfl,
   (transactionalSession_lifecycle ⟨true, false, true⟩).2.1,
   (transactionalSession_lifecycle ⟨true, false, true⟩).2.2.1⟩

/-- A raised driver error as inspected by the classification helpers of
src/src/utils.ts: whether it is a `MongoError` instance, its numeric code
(absent on plain errors), and its message. -/
structure DriverError where
  isMongoError : Bool
  code : Option Int
  message : String

/-- `isDuplicateError` from src/src/utils.ts lines 120-122: a `MongoError`
with code 11000. -/
def isDuplicateError (error : DriverError) : Bool :=
  error.isMongoError && error.code == some 11000

/-- `isInvalidDataError` from src/src/utils.ts lines 143-145: a
`MongoError` with code 121. -/
def isInvalidDataError (error : DriverError) : Bool :=
  error.isMongoError && error.code == some 121

mutual

/-- Scanner for the global regex of `getDuplicatedDataIds` (all substrings
of the form "content" with nonempty quote-free content): advance to the
next opening double quote. -/
def quotedFind : List Char → List String
  | [] => []
  | c :: rest => if c = '"' then quotedScan rest [] else quotedFind rest

/-- Scan the content following an opening double quote (accumulated in
reverse). A closing quote with nonempty content emits one match and
resumes the search after it; a quote immediately after the opening one
fails the match and, like the regex engine advancing one character, makes
that quote the new opening one; an unterminated quote ends the search with
no further match. -/
def quotedScan : List Char → List Char → List String
  | [], _ => []
  | c :: rest, acc =>
    if c = '"' then
      if acc.isEmpty then quotedScan rest []
      else String.mk acc.reverse :: quotedFind rest
    else quotedScan rest (c :: acc)

end

/-- `getDuplicatedDataIds` (a.k.a. `getDuplicatedDocumentIds`) from
src/src/utils.ts lines 129-136: every double-quoted substring of the error
message with the quotes stripped, in order; the empty list when the
message has no match. -/
def getDuplicatedDataIds (error : DriverError) : List String :=
  quotedFind error.message.toList

/-- The classified error kinds produced by `throwDataSourceError`: the
duplicate error carrying the extracted identifiers, the invalid-data
error, or the generic wrapped error. Callers only ever observe one of
these kinds, never the raw driver error. -/
inductive DataSourceErrorKind where
  | duplicateError (data : List String)
  | invalidDataError
  | generalError

/-- `throwDataSourceError` from src/src/mongo.collection.source.ts lines
115-127: the duplicate check first, then the invalid-data check, else the
generic wrapped error. -/
def MongoCollectionSource.throwDataSourceError (error : DriverError) :
    DataSourceErrorKind :=
  if isDuplicateError error then .duplicateError (getDuplicatedDataIds error)
  else if isInvalidDataError error then .invalidDataError
  else .generalError

/-- C5: every driver-raised error is reclassified in a fixed precedence —
a `MongoError` with duplicate-key code 11000 becomes the duplicate error
carrying every double-quoted substring of its message, otherwise a
`MongoError` with validation code 121 becomes the invalid-data error,
otherwise the generic wrapped error — and a message of the form
`dup key: \x7b _id: "X" \x7d` yields exactly the identifiers `["X"]`. -/
theorem errorClassifier_precedence :
    (∀ (e : DriverError), e.isMongoError = true → e.code = some 11000 →
      MongoCollectionSource.throwDataSourceError e =
        .duplicateError (getDuplicatedDataIds e)) ∧
    (∀ (e : DriverError), isDuplicateError e = false →
      e.isMongoError = true → e.code = some 121 →
      MongoCollectionSource.throwDataSourceError e = .invalidDataError) ∧
    (∀ (e : DriverError), isDuplicateError e = false →
      isInvalidDataError e = false →
      MongoCollectionSource.throwDataSourceError e = .generalError) ∧
    getDuplicatedDataIds ⟨true, some 11000,
      "E11000 duplicate key error collection: test.collection index: _id_ dup key: \x7b _id: \"duplicatedId\" \x7d"⟩ =
      ["duplicatedId"] ∧
    getDuplicatedDataIds ⟨true, some 11000, "dup key: \x7b _id: \"X\" \x7d"⟩ =
      ["X"] := by
  refine ⟨?_, ?_, ?_, rfl, rfl⟩
  · intro e h1 h2
    simp [MongoCollectionSource.throwDataSourceError, isDuplicateError, h1, h2]
  · intro e hdup h1 h2
    simp [MongoCollectionSource.throwDataSourceError, hdup, isInvalidDataError,
      h1, h2]
  · intro e hdup hinv
    simp [MongoCollectionSource.throwDataSourceError, hdup, hinv]

/-- C5 witness: the precedence applied to three concrete driver errors —
the duplicate-key message of the unit test, a validation failure, and a
plain error that falls through to the generic wrapper. -/
theorem errorClassifier_precedence_witness :
    MongoCollectionSource.throwDataSourceError ⟨true, some 11000,
        "dup key: \x7b _id: \"X\" \x7d"⟩ =
      .duplicateError ["X"] ∧
    MongoCollectionSource.throwDataSourceError ⟨true, some 121,
        "Document failed validation"⟩ = .invalidDataError ∧
    MongoCollectionSource.throwDataSourceError ⟨false, none,
        "Not a duplicate error"⟩ = .generalError :=
  ⟨(errorClassifier_precedence.1 ⟨true, some 11000,
      "dup key: \x7b _id: \"X\" \x7d"⟩ rfl rfl).trans (by rw [
        show getDuplicatedDataIds ⟨true, some 11000,
          "dup key: \x7b _id: \"X\" \x7d"⟩ = ["X"] from rfl]),
   errorClassifier_precedence.2.1 ⟨true, some 121,
      "Document failed validation"⟩ rfl rfl rfl,
   errorClassifier_precedence.2.2.1 ⟨false, none,
      "Not a duplicate error"⟩ rfl rfl⟩

/-- One entry of a bulk-write operations array as inspected by
`isBulkUpdate`: its `updateOne` and `updateMany` properties, `some` when
the key is present with a truthy payload and `none` otherwise (an
`insertOne`- or `deleteOne`-style entry has both absent). -/
structure BulkOperation where
  updateOne : Option MValue
  updateMany : Option MValue

/-- `isBulkUpdate` from src/src/utils.ts lines 152-161: start from `true`
and flip the result to `false` on every entry that has neither an
`updateOne` nor an `updateMany` property. -/
def isBulkUpdate (operations : List BulkOperation) : Bool :=
  operations.foldl
    (fun result operation =>
      if operation.updateOne.isNone && operation.updateMany.isNone then false
      else result)
    true

/-- What the array branch of `MongoCollectionSource.update`
(src/src/mongo.collection.source.ts lines 192-206) does with a bulk
operations array: invoke the driver's `bulkWrite` with the operations when
`isBulkUpdate` accepts them, otherwise raise `BulkUpdateOperationsError`
without any driver call. -/
inductive UpdateDispatch where
  | bulkWriteInvoked (operations : List BulkOperation)
  | bulkUpdateOperationsError

/-- The dispatch of `update` on an operations array. -/
def MongoCollectionSource.updateWithOperations
    (operations : List BulkOperation) : UpdateDispatch :=
  if isBulkUpdate operations then .bulkWriteInvoked operations
  else .bulkUpdateOperationsError

/-- Once the `isBulkUpdate` accumulator is `false`, no later entry can
flip it back. -/
theorem isBulkUpdate_foldl_false (operations : List BulkOperation) :
    operations.foldl
      (fun result operation =>
        if operation.updateOne.isNone && operation.updateMany.isNone then false
        else result)
      false = false := by
  induction operations with
  | nil => rfl
  | cons o rest ih =>
    simp only [List.foldl_cons, ite_self]
    exact ih

/-- An entry with neither update key forces `isBulkUpdate` to `false`. -/
theorem isBulkUpdate_false_of_mem (operations : List BulkOperation)
    (op : BulkOperation) (hmem : op ∈ operations)
    (h1 : op.updateOne = none) (h2 : op.updateMany = none) :
    isBulkUpdate operations = false := by
  induction operations with
  | nil => cases hmem
  | cons o rest ih =>
    rw [isBulkUpdate, List.foldl_cons]
    rcases List.mem_cons.mp hmem with rfl | hmem'
    · rw [if_pos (by simp [h1, h2])]
      exact isBulkUpdate_foldl_false rest
    · cases hstep : o.updateOne.isNone && o.updateMany.isNone
      · rw [if_neg (by simp [hstep])]
        exact ih hmem'
      · rw [if_pos (by simp [hstep])]
        exact isBulkUpdate_foldl_false rest

/-- C8: an operations array containing at least one element that has
neither an `updateOne` nor an `updateMany` key makes the bulk-style
`update` raise `BulkUpdateOperationsError` before any driver call — the
driver's `bulkWrite` is never invoked for such input. -/
theorem bulkUpdate_guard_rejects (operations : List BulkOperation)
    (op : BulkOperation) (hmem : op ∈ operations)
    (h1 : op.updateOne = none) (h2 : op.updateMany = none) :
    MongoCollectionSource.updateWithOperations operations =
      .bulkUpdateOperationsError := by
  rw [MongoCollectionSource.updateWithOperations,
    if_neg (by rw [isBulkUpdate_false_of_mem operations op hmem h1 h2]; simp)]

/-- C8 witness: the guard at the unit test's rejected operations array —
an `insertOne`-style entry followed by a `deleteOne`-style entry, the
first of which already has neither update key. -/
theorem bulkUpdate_guard_rejects_witness :
    MongoCollectionSource.updateWithOperations [⟨none, none⟩, ⟨none, none⟩] =
      .bulkUpdateOperationsError :=
  bulkUpdate_guard_rejects [⟨none, none⟩, ⟨none, none⟩] ⟨none, none⟩
    (List.mem_cons_self _ _) rfl rfl

/-- C10: the all-update check of `isBulkUpdate` is vacuously satisfied by
the empty operations array, so `update([])` passes the bulk-operation
guard, never raises `BulkUpdateOperationsError`, and invokes the driver's
`bulkWrite` with an empty operation list. -/
theorem bulkUpdate_empty_accepted :
    isBulkUpdate [] = true ∧
    MongoCollectionSource.updateWithOperations [] = .bulkWriteInvoked [] :=
  ⟨rfl, rfl⟩
